import Mathlib

/-!
Verification of the authenticated API-client boundary and the risk-classifier
helpers of the UK road-safety dashboard.

The embedding is shallow: `localStorage` is a total map from key to optional
string, the axios request/response interceptors and the auth-context
operations (`login`, `signup`, `logout`, `regenerateApiKey`) are pure state
transformers over a `ClientState`, and the two risk classifiers
(`getRiskCategory` from the hotspots page, `getRiskLevel` from the schools
page) are pure functions.  JavaScript numbers are modelled as `ℕ` for
accident counts and `ℚ` for the fractional risk score; JavaScript string
truthiness (`null`/empty-string falsy) is modelled explicitly.
-/

namespace RoadSafety

/-! ## Risk classifiers -/

/-- Risk categories of the area/hotspot classifier in `Hotspots.jsx`,
ordered by severity. -/
inductive RiskCategory
  | critical
  | veryHigh
  | high
  | moderate
  | low
deriving DecidableEq, Repr

/-- Numeric severity rank of a hotspot risk category: larger is more severe. -/
def sevRank : RiskCategory → ℕ
  | .critical => 4
  | .veryHigh => 3
  | .high => 2
  | .moderate => 1
  | .low => 0

/-- JavaScript comparison `score >= t` where `score` may be `undefined`
(an absent score compares false against every threshold). -/
def scoreGe (score : Option ℚ) (t : ℚ) : Prop :=
  match score with
  | some v => v ≥ t
  | none => False

instance instDecidableScoreGe (score : Option ℚ) (t : ℚ) : Decidable (scoreGe score t) :=
  match score with
  | some v => inferInstanceAs (Decidable (v ≥ t))
  | none => inferInstanceAs (Decidable False)

/-- Area/hotspot classifier, from `Hotspots.jsx` `getRiskCategory(score,
accidentCount)`: four guarded returns from Critical down to Moderate, each
testing `accidentCount >= c || score >= s`, and a final return of Low. -/
def getRiskCategory (score : Option ℚ) (accidentCount : ℕ) : RiskCategory :=
  if accidentCount ≥ 100 ∨ scoreGe score 200 then .critical
  else if accidentCount ≥ 50 ∨ scoreGe score 100 then .veryHigh
  else if accidentCount ≥ 25 ∨ scoreGe score 50 then .high
  else if accidentCount ≥ 10 ∨ scoreGe score 20 then .moderate
  else .low

/-- Risk levels of the school-variant classifier, ordered by severity. -/
inductive RiskLevel
  | high
  | medium
  | low
deriving DecidableEq, Repr

/-- Numeric severity rank of a school risk level: larger is more severe. -/
def levelRank : RiskLevel → ℕ
  | .high => 2
  | .medium => 1
  | .low => 0

/-- One entry of the `RISK_LEVELS` table of the schools page. -/
structure RiskLevelDef where
  color : String
  label : String
  threshold : ℕ

/-- The `RISK_LEVELS` table of the schools page. -/
structure RiskLevelsConfig where
  high : RiskLevelDef
  medium : RiskLevelDef
  low : RiskLevelDef

/-- The `RISK_LEVELS` constant from the schools page source. -/
def RISK_LEVELS : RiskLevelsConfig :=
  ⟨⟨"#dc2626", "High Risk", 10⟩, ⟨"#f59e0b", "Medium Risk", 5⟩, ⟨"#16a34a", "Low Risk", 0⟩⟩

/-- School-variant classifier `getRiskLevel(accidentCount)` from the schools
page: high at the high threshold, medium at the medium threshold, else low. -/
def getRiskLevel (accidentCount : ℕ) : RiskLevel :=
  if accidentCount ≥ RISK_LEVELS.high.threshold then .high
  else if accidentCount ≥ RISK_LEVELS.medium.threshold then .medium
  else .low

/-! ### Spec-side rendering of the hotspot classifier (for the refinement
claim): ordered tiers from most to least severe, first match wins. -/

/-- The ordered tier table of the hotspot classifier: category, minimum
count, minimum score, listed from most to least severe. -/
def hotspotTiers : List (RiskCategory × ℕ × ℚ) :=
  [(.critical, 100, 200), (.veryHigh, 50, 100), (.high, 25, 50), (.moderate, 10, 20)]

/-- Spec-side classifier: scan the ordered tiers from most to least severe
and return the first category whose minimum is met by either the count or
the score; return the least-severe category when no tier matches. -/
def classifyFirstMatch (accidentCount : ℕ) (score : Option ℚ) : RiskCategory :=
  match hotspotTiers.find? (fun t => decide (accidentCount ≥ t.2.1) || decide (scoreGe score t.2.2)) with
  | some t => t.1
  | none => .low

/-! ### Helper for monotonicity: the classifier as an abstract first-match
over four decidable tier conditions. -/

/-- Abstract four-tier first-match classifier over the tier conditions. -/
def classifyTier (P1 P2 P3 P4 : Prop)
    [Decidable P1] [Decidable P2] [Decidable P3] [Decidable P4] : RiskCategory :=
  if P1 then .critical
  else if P2 then .veryHigh
  else if P3 then .high
  else if P4 then .moderate
  else .low

theorem getRiskCategory_eq_tier (score : Option ℚ) (c : ℕ) :
    getRiskCategory score c =
      classifyTier (c ≥ 100 ∨ scoreGe score 200) (c ≥ 50 ∨ scoreGe score 100)
        (c ≥ 25 ∨ scoreGe score 50) (c ≥ 10 ∨ scoreGe score 20) := rfl

theorem classifyTier_mono (P1 P2 P3 P4 Q1 Q2 Q3 Q4 : Prop)
    [Decidable P1] [Decidable P2] [Decidable P3] [Decidable P4]
    [Decidable Q1] [Decidable Q2] [Decidable Q3] [Decidable Q4]
    (h1 : P1 → Q1) (h2 : P2 → Q2) (h3 : P3 → Q3) (h4 : P4 → Q4) :
    sevRank (classifyTier P1 P2 P3 P4) ≤ sevRank (classifyTier Q1 Q2 Q3 Q4) := by
  unfold classifyTier
  split_ifs <;> simp [sevRank] <;> tauto

/-- C4: for the area/hotspot variant, for every count and optional score,
the classifier checks the ordered tiers from Critical down, returns the
first category whose minimum is satisfied by either the count or the score,
and returns Low when no tier matches: `getRiskCategory` coincides with the
first-match scan of the ordered tier table. -/
theorem getRiskCategory_is_first_match (score : Option ℚ) (accidentCount : ℕ) :
    getRiskCategory score accidentCount = classifyFirstMatch accidentCount score := by
  unfold getRiskCategory classifyFirstMatch hotspotTiers
  simp only [List.find?]
  split_ifs with h1 h2 h3 h4
  · have hb1 : (decide (accidentCount ≥ 100) || decide (scoreGe score 200)) = true := by
      simpa using h1
    rw [hb1]
  · have hb1 : (decide (accidentCount ≥ 100) || decide (scoreGe score 200)) = false := by
      simpa using h1
    have hb2 : (decide (accidentCount ≥ 50) || decide (scoreGe score 100)) = true := by
      simpa using h2
    rw [hb1, hb2]
  · have hb1 : (decide (accidentCount ≥ 100) || decide (scoreGe score 200)) = false := by
      simpa using h1
    have hb2 : (decide (accidentCount ≥ 50) || decide (scoreGe score 100)) = false := by
      simpa using h2
    have hb3 : (decide (accidentCount ≥ 25) || decide (scoreGe score 50)) = true := by
      simpa using h3
    rw [hb1, hb2, hb3]
  · have hb1 : (decide (accidentCount ≥ 100) || decide (scoreGe score 200)) = false := by
      simpa using h1
    have hb2 : (decide (accidentCount ≥ 50) || decide (scoreGe score 100)) = false := by
      simpa using h2
    have hb3 : (decide (accidentCount ≥ 25) || decide (scoreGe score 50)) = false := by
      simpa using h3
    have hb4 : (decide (accidentCount ≥ 10) || decide (scoreGe score 20)) = true := by
      simpa using h4
    rw [hb1, hb2, hb3, hb4]
  · have hb1 : (decide (accidentCount ≥ 100) || decide (scoreGe score 200)) = false := by
      simpa using h1
    have hb2 : (decide (accidentCount ≥ 50) || decide (scoreGe score 100)) = false := by
      simpa using h2
    have hb3 : (decide (accidentCount ≥ 25) || decide (scoreGe score 50)) = false := by
      simpa using h3
    have hb4 : (decide (accidentCount ≥ 10) || decide (scoreGe score 20)) = false := by
      simpa using h4
    rw [hb1, hb2, hb3, hb4]

/-- C5: both classifier variants are monotone in severity: with the score
held fixed, a larger count never yields a less severe category; with the
count held fixed, a larger (non-negative) score never yields a less severe
category; and the school classifier is monotone in its count. -/
theorem risk_classifiers_monotone :
    (∀ (s : Option ℚ) (c1 c2 : ℕ), c1 ≤ c2 →
      sevRank (getRiskCategory s c1) ≤ sevRank (getRiskCategory s c2)) ∧
    (∀ (c : ℕ) (v1 v2 : ℚ), 0 ≤ v1 → v1 ≤ v2 →
      sevRank (getRiskCategory (some v1) c) ≤ sevRank (getRiskCategory (some v2) c)) ∧
    (∀ c1 c2 : ℕ, c1 ≤ c2 → levelRank (getRiskLevel c1) ≤ levelRank (getRiskLevel c2)) := by
  refine ⟨?_, ?_, ?_⟩
  · intro s c1 c2 hc
    rw [getRiskCategory_eq_tier, getRiskCategory_eq_tier]
    exact classifyTier_mono _ _ _ _ _ _ _ _
      (fun h => h.imp (fun h' => le_trans h' hc) id)
      (fun h => h.imp (fun h' => le_trans h' hc) id)
      (fun h => h.imp (fun h' => le_trans h' hc) id)
      (fun h => h.imp (fun h' => le_trans h' hc) id)
  · intro c v1 v2 _ hv
    rw [getRiskCategory_eq_tier, getRiskCategory_eq_tier]
    exact classifyTier_mono _ _ _ _ _ _ _ _
      (fun h => h.imp id (fun h' => le_trans h' hv))
      (fun h => h.imp id (fun h' => le_trans h' hv))
      (fun h => h.imp id (fun h' => le_trans h' hv))
      (fun h => h.imp id (fun h' => le_trans h' hv))
  · intro c1 c2 hc
    unfold getRiskLevel
    split_ifs <;> simp_all [levelRank, RISK_LEVELS] <;> omega

/-- Witness for C5 at concrete inputs: count 5 versus 60 under score 30. -/
theorem risk_classifiers_monotone_witness :
    sevRank (getRiskCategory (some 30) 5) ≤ sevRank (getRiskCategory (some 30) 60) :=
  risk_classifiers_monotone.1 (some 30) 5 60 (by decide)

/-- C6: the school-variant classifier with thresholds High at 10, Medium at
5, Low otherwise returns high for 12, low for 4 and low for 0, and is total:
every non-negative count is assigned one of the three levels. -/
theorem getRiskLevel_examples_and_total :
    getRiskLevel 12 = .high ∧ getRiskLevel 4 = .low ∧ getRiskLevel 0 = .low ∧
    RISK_LEVELS.high.threshold = 10 ∧ RISK_LEVELS.medium.threshold = 5 ∧
    RISK_LEVELS.low.threshold = 0 ∧
    ∀ n : ℕ, getRiskLevel n = .high ∨ getRiskLevel n = .medium ∨ getRiskLevel n = .low := by
  refine ⟨by decide, by decide, by decide, rfl, rfl, rfl, ?_⟩
  intro n
  unfold getRiskLevel
  split_ifs <;> simp

/-! ## Session / auth gateway

The browser `localStorage` is a total map from key to optional string; the
axios default Authorization header and the React `user` state complete the
observable client state.  The two axios interceptors of `api.js` and the
four auth-context operations are pure transformers over this state. -/

/-- Browser `localStorage`: `getItem` returns `none` for a missing key. -/
abbrev Store := String → Option String

/-- `localStorage.setItem`. -/
def Store.set (s : Store) (k v : String) : Store :=
  fun q => if q = k then some v else s q

/-- `localStorage.removeItem`. -/
def Store.remove (s : Store) (k : String) : Store :=
  fun q => if q = k then none else s q

/-- JavaScript string truthiness of a `getItem` result: `null` and the
empty string are falsy. -/
def truthyOpt (v : Option String) : Bool :=
  match v with
  | none => false
  | some s => !s.isEmpty

/-- Substring containment on character lists (JavaScript
`String.prototype.includes`). -/
def containsSub (pat : List Char) : List Char → Bool
  | [] => pat.isPrefixOf []
  | c :: rest => pat.isPrefixOf (c :: rest) || containsSub pat rest

/-- JavaScript `s.includes(pat)`. -/
def strIncludes (s pat : String) : Bool :=
  containsSub pat.toList s.toList

/-- JavaScript `url?.includes(pat)` where `url` may be `undefined`; an
absent url yields a falsy result. -/
def urlIncludes (u : Option String) (pat : String) : Bool :=
  match u with
  | none => false
  | some s => strIncludes s pat

/-- Request headers, a total map from header name to optional value. -/
abbrev Headers := String → Option String

/-- Header assignment `config.headers[k] = v`. -/
def Headers.set (h : Headers) (k v : String) : Headers :=
  fun q => if q = k then some v else h q

/-- An outbound axios request descriptor: the parts the request
interceptor reads or writes. -/
structure RequestConfig where
  url : Option String
  headers : Headers

/-- Request interceptor of `api.js` (`api.interceptors.request.use`): mark
the request as a dashboard request, attach the stored API key as `X-API-Key`
when it is truthy and the url does not contain `/users/`, then attach the
stored token as a bearer `Authorization` header when it is truthy and no
Authorization header is present.  The interceptor only reads the store, so
it is embedded as returning the store unchanged beside the new config. -/
def attachCredentials (store : Store) (cfg : RequestConfig) : Store × RequestConfig :=
  let h0 := cfg.headers.set "X-Dashboard" "true"
  let h1 :=
    match store "api_key" with
    | some k =>
      if !k.isEmpty && !(urlIncludes cfg.url "/users/") then h0.set "X-API-Key" k else h0
    | none => h0
  let h2 :=
    match store "token" with
    | some t =>
      if !t.isEmpty && !(truthyOpt (h1 "Authorization")) then
        h1.set "Authorization" ("Bearer " ++ t)
      else h1
    | none => h1
  (store, { cfg with headers := h2 })

/-- The server user record destructured by the auth context: only the
fields the client reads are modelled. -/
structure UserData where
  name : String
  email : String
  api_key : String
deriving DecidableEq

/-- `JSON.stringify` of the user record as persisted under the `user` key. -/
def stringifyUser (u : UserData) : String :=
  "\x7b\"name\":\"" ++ u.name ++ "\",\"email\":\"" ++ u.email ++
    "\",\"api_key\":\"" ++ u.api_key ++ "\"\x7d"

/-- Observable client state: `localStorage`, the axios default
Authorization header (`api.defaults.headers.common`), and the React `user`
state of the auth context. -/
structure ClientState where
  store : Store
  defaultAuth : Option String
  currentUser : Option UserData

theorem ClientState.ext {x y : ClientState} (hs : x.store = y.store)
    (hd : x.defaultAuth = y.defaultAuth) (hc : x.currentUser = y.currentUser) : x = y := by
  cases x; cases y; simp_all

/-- The parts of an axios error object the response interceptor reads:
`error.response?.status` and `error.config?.url`. -/
structure ErrorInfo where
  status : Option ℕ
  url : Option String

/-- Error branch of the response interceptor of `api.js`
(`api.interceptors.response.use`): on a 401 whose originating request url
does not contain `/users/login` or `/users/signup`, remove the `token`,
`user` and `api_key` entries and redirect to the login view (the returned
flag).  The handler is one synchronous state update, so callers only ever
observe the pre-state or the fully-updated post-state. -/
def handleResponseError (st : ClientState) (e : ErrorInfo) : ClientState × Bool :=
  if e.status = some 401 then
    let isAuthEndpoint := urlIncludes e.url "/users/login" || urlIncludes e.url "/users/signup"
    if !isAuthEndpoint then
      ({ st with store := ((st.store.remove "token").remove "user").remove "api_key" }, true)
    else (st, false)
  else (st, false)

/-- Success payload of `POST /users/login` and `POST /users/signup`. -/
structure AuthSuccess where
  access_token : String
  user : UserData

/-- Failure information available to an auth operation:
`err.response?.data?.detail`, absent on network failure or a detail-less
response body. -/
structure FailureInfo where
  detail : Option String

/-- JavaScript `a || b` on an optional detail string: falsy values
(absent or empty) fall through to the fallback. -/
def jsOr (d : Option String) (fallback : String) : String :=
  match d with
  | some s => if s.isEmpty then fallback else s
  | none => fallback

/-- Result value of `login`/`signup`: `{success:true}` or
`{success:false, error}`. -/
inductive AuthResult
  | ok
  | err (msg : String)
deriving DecidableEq

/-- Result value of `regenerateApiKey`: `{success:true, api_key}` or
`{success:false, error}`. -/
inductive RegenResult
  | ok (key : String)
  | err (msg : String)
deriving DecidableEq

/-- `login` from `AuthContext.jsx`: on success store the token, the
stringified user and the user's API key, set the default bearer header and
the React user; on failure return the response detail or the fallback
message, leaving the state unchanged.  All failures are caught, so the
operation is total. -/
def login (st : ClientState) (outcome : Except FailureInfo AuthSuccess) :
    ClientState × AuthResult :=
  match outcome with
  | .ok r =>
    ({ st with
        store := ((st.store.set "token" r.access_token).set "user"
          (stringifyUser r.user)).set "api_key" r.user.api_key,
        defaultAuth := some ("Bearer " ++ r.access_token),
        currentUser := some r.user }, .ok)
  | .error f => (st, .err (jsOr f.detail "Login failed"))

/-- `signup` from `AuthContext.jsx`: same shape as `login` with its own
fallback message. -/
def signup (st : ClientState) (outcome : Except FailureInfo AuthSuccess) :
    ClientState × AuthResult :=
  match outcome with
  | .ok r =>
    ({ st with
        store := ((st.store.set "token" r.access_token).set "user"
          (stringifyUser r.user)).set "api_key" r.user.api_key,
        defaultAuth := some ("Bearer " ++ r.access_token),
        currentUser := some r.user }, .ok)
  | .error f => (st, .err (jsOr f.detail "Signup failed"))

/-- `regenerateApiKey` from `AuthContext.jsx`: on success store the
refreshed user and its API key; on failure return the detail or the
fallback, mutating nothing. -/
def regenerateApiKey (st : ClientState) (outcome : Except FailureInfo UserData) :
    ClientState × RegenResult :=
  match outcome with
  | .ok u =>
    ({ st with
        store := (st.store.set "user" (stringifyUser u)).set "api_key" u.api_key,
        currentUser := some u }, .ok u.api_key)
  | .error f => (st, .err (jsOr f.detail "Failed to regenerate API key"))

/-- `logout` from `AuthContext.jsx`: remove the three persisted entries,
delete the default Authorization header and clear the React user. -/
def logout (st : ClientState) : ClientState :=
  { st with
      store := ((st.store.remove "token").remove "user").remove "api_key",
      defaultAuth := none,
      currentUser := none }

/-- Empty `localStorage`. -/
def emptyStore : Store := fun _ => none

/-- Fresh client state: nothing stored, no default header, no user. -/
def initialState : ClientState := ⟨emptyStore, none, none⟩

/-- A sample logged-in user. -/
def demoUser : UserData := ⟨"Ada", "ada@example.com", "key-123"⟩

/-- A sample logged-in client state with all three entries persisted and
the default bearer header set. -/
def demoState : ClientState :=
  ⟨((emptyStore.set "token" "tok-1").set "user" (stringifyUser demoUser)).set "api_key" "key-123",
   some "Bearer tok-1", some demoUser⟩

theorem jsOr_of_ne (d fallback : String) (h : d ≠ "") : jsOr (some d) fallback = d := by
  have hne : d.isEmpty = false := by
    rw [Bool.eq_false_iff]
    intro hempty
    exact h ((String.isEmpty_iff d).mp hempty)
  simp [jsOr, hne]

/-- C1: a 401 response whose originating request does not target the login
or signup endpoint clears all three persisted session fields (token, user
profile, API key) in the single atomic transition of the response handler,
so no caller observes a partial clear; the redirect flag is raised. -/
theorem teardown_401_clears_session (st : ClientState) (u : Option String)
    (hl : urlIncludes u "/users/login" = false)
    (hs : urlIncludes u "/users/signup" = false) :
    (handleResponseError st ⟨some 401, u⟩).1.store "token" = none ∧
    (handleResponseError st ⟨some 401, u⟩).1.store "user" = none ∧
    (handleResponseError st ⟨some 401, u⟩).1.store "api_key" = none ∧
    (handleResponseError st ⟨some 401, u⟩).2 = true := by
  simp [handleResponseError, hl, hs, Store.remove]

/-- Witness for C1: a 401 to GET /schools clears the logged-in session. -/
theorem teardown_401_clears_session_witness :
    (handleResponseError demoState ⟨some 401, some "/schools"⟩).1.store "token" = none ∧
    (handleResponseError demoState ⟨some 401, some "/schools"⟩).1.store "user" = none ∧
    (handleResponseError demoState ⟨some 401, some "/schools"⟩).1.store "api_key" = none ∧
    (handleResponseError demoState ⟨some 401, some "/schools"⟩).2 = true :=
  teardown_401_clears_session demoState (some "/schools") (by decide) (by decide)

/-- C2: a 401 response whose originating request targets the login or
signup endpoint leaves the whole client state — in particular all three
stored session fields — unchanged. -/
theorem auth_endpoint_401_preserves_session (st : ClientState) (u : Option String)
    (h : (urlIncludes u "/users/login" || urlIncludes u "/users/signup") = true) :
    (handleResponseError st ⟨some 401, u⟩).1 = st := by
  simp [handleResponseError, h]

/-- Witness for C2: a 401 to POST /users/login leaves the session alone. -/
theorem auth_endpoint_401_preserves_session_witness :
    (handleResponseError demoState ⟨some 401, some "/users/login"⟩).1 = demoState :=
  auth_endpoint_401_preserves_session demoState (some "/users/login") (by decide)

/-- C10: the 401-triggered teardown removes exactly the persisted entries
`token`, `user` and `api_key`: every other `localStorage` key is untouched,
and — unlike `logout`, which sets the default Authorization header to
`none` — the teardown leaves the default Authorization header (and the
React user state) exactly as it was. -/
theorem teardown_401_frame (st : ClientState) (u : Option String) (k : String)
    (hl : urlIncludes u "/users/login" = false)
    (hs : urlIncludes u "/users/signup" = false)
    (hk1 : k ≠ "token") (hk2 : k ≠ "user") (hk3 : k ≠ "api_key") :
    (handleResponseError st ⟨some 401, u⟩).1.store k = st.store k ∧
    (handleResponseError st ⟨some 401, u⟩).1.defaultAuth = st.defaultAuth ∧
    (handleResponseError st ⟨some 401, u⟩).1.currentUser = st.currentUser ∧
    (logout st).defaultAuth = none := by
  simp [handleResponseError, logout, hl, hs, Store.remove, hk1, hk2, hk3]

/-- Witness for C10: after a 401 teardown from the logged-in state, an
unrelated key and the old bearer default header are untouched. -/
theorem teardown_401_frame_witness :
    (handleResponseError demoState ⟨some 401, some "/schools"⟩).1.store "theme" =
      demoState.store "theme" ∧
    (handleResponseError demoState ⟨some 401, some "/schools"⟩).1.defaultAuth =
      demoState.defaultAuth ∧
    (handleResponseError demoState ⟨some 401, some "/schools"⟩).1.currentUser =
      demoState.currentUser ∧
    (logout demoState).defaultAuth = none :=
  teardown_401_frame demoState (some "/schools") "theme"
    (by decide) (by decide) (by decide) (by decide) (by decide)

/-- C3: the request interceptor never mutates the stored session; it
attaches `X-API-Key` exactly when the stored key is truthy and the url does
not contain `/users/` (so never on a user-account request), attaches the
bearer `Authorization` header exactly when the stored token is truthy and
the request carries no Authorization header already, and leaves the url
unchanged — absence of credentials yields an unauthenticated request. -/
theorem attachCredentials_spec (store : Store) (cfg : RequestConfig) :
    (attachCredentials store cfg).1 = store ∧
    ((attachCredentials store cfg).2.headers "X-API-Key" =
      if truthyOpt (store "api_key") && !(urlIncludes cfg.url "/users/") then store "api_key"
      else cfg.headers "X-API-Key") ∧
    (urlIncludes cfg.url "/users/" = true →
      (attachCredentials store cfg).2.headers "X-API-Key" = cfg.headers "X-API-Key") ∧
    ((attachCredentials store cfg).2.headers "Authorization" =
      if truthyOpt (store "token") && !(truthyOpt (cfg.headers "Authorization")) then
        Option.map (fun t => "Bearer " ++ t) (store "token")
      else cfg.headers "Authorization") ∧
    (attachCredentials store cfg).2.url = cfg.url := by
  have hmain :
      ((attachCredentials store cfg).2.headers "X-API-Key" =
        if truthyOpt (store "api_key") && !(urlIncludes cfg.url "/users/") then store "api_key"
        else cfg.headers "X-API-Key") ∧
      ((attachCredentials store cfg).2.headers "Authorization" =
        if truthyOpt (store "token") && !(truthyOpt (cfg.headers "Authorization")) then
          Option.map (fun t => "Bearer " ++ t) (store "token")
        else cfg.headers "Authorization") := by
    rcases hk : store "api_key" with _ | k <;>
      rcases ht : store "token" with _ | t <;>
        constructor <;>
          simp only [attachCredentials, hk, ht, truthyOpt, Headers.set, ite_apply] <;>
            simp [ite_self]
  refine ⟨rfl, hmain.1, ?_, hmain.2, rfl⟩
  intro hu
  rw [hmain.1, hu]
  simp

/-- Witness for C3: with credentials stored, a request to the user-account
endpoint /users/me gets no `X-API-Key` header. -/
theorem attachCredentials_spec_witness :
    (attachCredentials demoState.store ⟨some "/users/me", fun _ => none⟩).2.headers "X-API-Key" =
      (⟨some "/users/me", fun _ => none⟩ : RequestConfig).headers "X-API-Key" :=
  (attachCredentials_spec demoState.store ⟨some "/users/me", fun _ => none⟩).2.2.1 (by decide)

/-- C7: every successful login and every successful signup sets all three
session fields together from the server response — the token, the
serialized user profile and the API key are all present (token and key
non-absent) — and sets the default bearer header and the React user to
match. -/
theorem login_signup_success_sets_session :
    (∀ (st : ClientState) (r : AuthSuccess),
      (login st (.ok r)).1.store "token" = some r.access_token ∧
      (login st (.ok r)).1.store "user" = some (stringifyUser r.user) ∧
      (login st (.ok r)).1.store "api_key" = some r.user.api_key ∧
      (login st (.ok r)).1.defaultAuth = some ("Bearer " ++ r.access_token) ∧
      (login st (.ok r)).1.currentUser = some r.user) ∧
    (∀ (st : ClientState) (r : AuthSuccess),
      (signup st (.ok r)).1.store "token" = some r.access_token ∧
      (signup st (.ok r)).1.store "user" = some (stringifyUser r.user) ∧
      (signup st (.ok r)).1.store "api_key" = some r.user.api_key ∧
      (signup st (.ok r)).1.defaultAuth = some ("Bearer " ++ r.access_token) ∧
      (signup st (.ok r)).1.currentUser = some r.user) := by
  constructor <;> intro st r <;>
    refine ⟨?_, ?_, ?_, rfl, rfl⟩ <;> simp [login, signup, Store.set]

/-- C8: `login`, `signup` and `regenerateApiKey` are total — they return a
result value and never throw: success yields a success result (for
`regenerateApiKey`, carrying the new key), and every failure yields an
error result whose message is the response detail when that is a usable
(non-empty) string and the operation's generic fallback otherwise. -/
theorem auth_ops_result_shape :
    (∀ (st : ClientState) (r : AuthSuccess), (login st (.ok r)).2 = .ok) ∧
    (∀ (st : ClientState) (d : String), d ≠ "" →
      (login st (.error ⟨some d⟩)).2 = .err d) ∧
    (∀ st : ClientState, (login st (.error ⟨none⟩)).2 = .err "Login failed") ∧
    (∀ st : ClientState, (login st (.error ⟨some ""⟩)).2 = .err "Login failed") ∧
    (∀ (st : ClientState) (r : AuthSuccess), (signup st (.ok r)).2 = .ok) ∧
    (∀ (st : ClientState) (d : String), d ≠ "" →
      (signup st (.error ⟨some d⟩)).2 = .err d) ∧
    (∀ st : ClientState, (signup st (.error ⟨none⟩)).2 = .err "Signup failed") ∧
    (∀ st : ClientState, (signup st (.error ⟨some ""⟩)).2 = .err "Signup failed") ∧
    (∀ (st : ClientState) (u : UserData), (regenerateApiKey st (.ok u)).2 = .ok u.api_key) ∧
    (∀ (st : ClientState) (d : String), d ≠ "" →
      (regenerateApiKey st (.error ⟨some d⟩)).2 = .err d) ∧
    (∀ st : ClientState,
      (regenerateApiKey st (.error ⟨none⟩)).2 = .err "Failed to regenerate API key") := by
  refine ⟨fun st r => rfl, ?_, fun st => rfl, fun st => rfl,
    fun st r => rfl, ?_, fun st => rfl, fun st => rfl,
    fun st u => rfl, ?_, fun st => rfl⟩ <;>
    intro st d h <;> simp [login, signup, regenerateApiKey, jsOr_of_ne d _ h]

/-- Witness for C8: a failed login with a response detail surfaces exactly
that detail. -/
theorem auth_ops_result_shape_witness :
    (login initialState (.error ⟨some "Invalid credentials"⟩)).2 = .err "Invalid credentials" :=
  auth_ops_result_shape.2.1 initialState "Invalid credentials" (by decide)

/-- C9: from any starting state, `logout` clears all three stored session
fields, the default Authorization header and the React user — every
credential read right after returns absence — and it is idempotent. -/
theorem logout_clears_and_idempotent (st : ClientState) :
    (logout st).store "token" = none ∧
    (logout st).store "user" = none ∧
    (logout st).store "api_key" = none ∧
    (logout st).defaultAuth = none ∧
    (logout st).currentUser = none ∧
    logout (logout st) = logout st := by
  refine ⟨?_, ?_, ?_, rfl, rfl, ?_⟩
  · simp [logout, Store.remove]
  · simp [logout, Store.remove]
  · simp [logout, Store.remove]
  · exact ClientState.ext
      (funext fun q => by simp only [logout, Store.remove]; split_ifs <;> rfl) rfl rfl

end RoadSafety
